import Mathlib

/-!
# AmiiboGenerator browser core: shallow embedding

A shallow embedding of the list-browser component of the AmiiboGenerator
homebrew application (`source/amiibomenu.hpp`, `source/amiibo.hpp`,
`source/util.hpp`), together with proofs of the specification's claims
about it.

JSON values are modelled by `JsonVal` (the value kinds the catalog uses:
null, booleans, integers, strings), a catalog entry by an association
list of attributes, and the `AmiiboMenu` object by the `MenuState`
structure.  External collaborators (filesystem, network, console) are
modelled as oracle parameters; console output is dropped, and where a
claim is about which collaborator calls happen, the model additionally
returns the trace of those calls.
-/

namespace AmiiboGen

/-- The JSON value kinds occurring in catalog entries: null, booleans,
integers and strings (mirrors the nlohmann value kinds the browser
actually stores and compares). -/
inductive JsonVal where
  | null : JsonVal
  | bool : Bool → JsonVal
  | num : Int → JsonVal
  | str : String → JsonVal
deriving DecidableEq

/-- A catalog entry: an open attribute map (string keys to JSON values),
as an association list, first binding wins (nlohmann objects have unique
keys, so this is faithful). -/
def Entry : Type := List (String × JsonVal)

instance : DecidableEq Entry := by
  unfold Entry
  infer_instance

/-- Key lookup in an entry: `obj.contains(key) ? obj[key] : absent`. -/
def getAttr : Entry → String → Option JsonVal
  | [], _ => none
  | (k', v) :: rest, k => if k' = k then some v else getAttr rest k

/-- Assignment `obj[key] = v`: replace the binding if the key is present,
append otherwise. -/
def setAttr : Entry → String → JsonVal → Entry
  | [], k, v => [(k, v)]
  | (k', v') :: rest, k, v =>
      if k' = k then (k, v) :: rest else (k', v') :: setAttr rest k v

/-- Extraction `get<bool>()`: succeeds exactly on boolean values. -/
def asBool : JsonVal → Option Bool
  | .bool b => some b
  | _ => none

/-- Extraction `get<std::string>()`: succeeds exactly on string values. -/
def asStr : JsonVal → Option String
  | .str s => some s
  | _ => none

/-- Model of `AmiiboMenu::getJsonValue<T>(obj, key, default_val)`: if the key is
present, try to extract a `T` from it (`ext` models `get<T>()`, returning
`none` where the C++ `get` would throw and the surrounding `try` block
would fall through); in every other case return the default.  Total by
construction: the embedding of "this never raises". -/
def getJsonValue {α : Type} (ext : JsonVal → Option α) (obj : Entry)
    (key : String) (default_val : α) : α :=
  match getAttr obj key with
  | some v => (ext v).getD default_val
  | none => default_val

/-- Shorthand for `getJsonValue<bool>` as used for the `selected` flag. -/
def getB (obj : Entry) (key : String) (d : Bool) : Bool :=
  getJsonValue asBool obj key d

/-- Shorthand for `getJsonValue<std::string>` as used for names, series,
head and tail. -/
def getS (obj : Entry) (key : String) (d : String) : String :=
  getJsonValue asStr obj key d

/-- The `selected` flag of an entry as the browser reads it
(`getJsonValue(item, "selected", false)`). -/
def selFlag (e : Entry) : Bool := getB e "selected" false

/-- Type rank used by nlohmann's mixed-type comparison
(null < boolean < number < string). -/
def typeRank : JsonVal → Nat
  | .null => 0
  | .bool _ => 1
  | .num _ => 2
  | .str _ => 5

/-- nlohmann's `operator<` on JSON values, restricted to the value kinds
of `JsonVal`: same kind compares the payloads, different kinds compare
the type ranks. -/
def ltJson : JsonVal → JsonVal → Bool
  | .null, .null => false
  | .bool a, .bool b => !a && b
  | .num a, .num b => decide (a < b)
  | .str a, .str b => decide (a < b)
  | a, b => decide (typeRank a < typeRank b)

/-- The value an entry contributes to the sort comparison for a field:
`a.contains(sortingKey) ? a[sortingKey] : json()`. -/
def sortKeyVal (sortingKey : String) (e : Entry) : JsonVal :=
  (getAttr e sortingKey).getD .null

/-- The comparator lambda of `AmiiboMenu::sortAmiibo`: ascending compares
`a_val < b_val`, descending `a_val > b_val` (which nlohmann defines as
`b_val < a_val`). -/
def cmpEntries (sortingKey : String) (ascending : Bool) (a b : Entry) : Bool :=
  if ascending then ltJson (sortKeyVal sortingKey a) (sortKeyVal sortingKey b)
  else ltJson (sortKeyVal sortingKey b) (sortKeyVal sortingKey a)

/-- Model of `std::sort` with a strict comparator `comp`, as a
deterministic comparison sort: the output is sorted so that no later
element compares `comp`-less than an earlier one. -/
def stdSort {α : Type} (comp : α → α → Bool) (l : List α) : List α :=
  l.mergeSort (fun a b => !comp b a)

/-- The constant `AmiiboMenu::VISIBLE_ITEMS`. -/
def VISIBLE_ITEMS : Int := 38

/-- The constant `AmiiboMenu::SORT_OPTIONS_COUNT`. -/
def SORT_OPTIONS_COUNT : Nat := 4

/-- The table `AmiiboMenu::SORT_FIELDS`. -/
def SORT_FIELDS : List String := ["amiiboSeries", "amiiboSeries", "name", "name"]

/-- The table `AmiiboMenu::SORT_DIRECTIONS`. -/
def SORT_DIRECTIONS : List Char := ['A', 'D', 'A', 'D']

/-- The member state of an `AmiiboMenu` object (the `pad` handle, being
purely an input-device handle, is outside the model). -/
structure MenuState where
  amiibodata : List Entry
  currentSelectedAmiibos : Int
  currentCursorIndex : Int
  scrollOffset : Int
  currentSortIndex : Nat
  generateWithImage : Bool
  shallExit : Bool
deriving DecidableEq

/-- Model of `AmiiboMenu::sortAmiibo`: re-sort the catalog with the field and
direction selected by `currentSortIndex`. -/
def sortAmiibo (st : MenuState) : MenuState :=
  let sortingKey := SORT_FIELDS.getD st.currentSortIndex ""
  let ascending := SORT_DIRECTIONS.getD st.currentSortIndex 'A' = 'A'
  { st with amiibodata := stdSort (cmpEntries sortingKey ascending) st.amiibodata }

/-- The sort field selected by the state's `currentSortIndex`. -/
def sortFieldOf (st : MenuState) : String :=
  SORT_FIELDS.getD st.currentSortIndex ""

/-- Whether the sort direction selected by the state's `currentSortIndex`
is ascending. -/
def sortAscOf (st : MenuState) : Bool :=
  decide (SORT_DIRECTIONS.getD st.currentSortIndex 'A' = 'A')

/-- The contract of `AmiiboMenu::sortAmiibo` as the C++ standard
specifies it: `std::sort` guarantees only that the output catalog is a
permutation of the input that is pairwise-sorted by the comparator.
Because `std::sort` is not stable, the relative order of
comparator-equal entries in the output is unspecified, so the action is
a relation between states, not a function: every pair in the relation
is an execution some conforming implementation may produce.  All
non-catalog fields are untouched. -/
def sortAmiiboRel (st st' : MenuState) : Prop :=
  ∃ out : List Entry,
    st' = { st with amiibodata := out } ∧
    out.Perm st.amiibodata ∧
    out.Pairwise (fun a b => (!cmpEntries (sortFieldOf st) (sortAscOf st) b a) = true)

/-- Model of `AmiiboMenu::adjustScrollOffset`: scroll up/down to keep the cursor in
the visible window, then clamp the offset into `[0, max 0 (total - 38)]`. -/
def adjustScrollOffset (st : MenuState) : MenuState :=
  let so :=
    if st.currentCursorIndex < st.scrollOffset then st.currentCursorIndex
    else if st.scrollOffset + VISIBLE_ITEMS ≤ st.currentCursorIndex then
      st.currentCursorIndex - VISIBLE_ITEMS + 1
    else st.scrollOffset
  let maxOffset := max 0 ((st.amiibodata.length : Int) - VISIBLE_ITEMS)
  { st with scrollOffset := max 0 (min so maxOffset) }

/-- Model of `AmiiboMenu::moveCursor`: clamp `current + delta` into
`[0, total - 1]`; when the clamped value differs from the current cursor,
update the cursor, adjust the scroll offset and refresh the screen.  The
returned `Bool` records whether a refresh happened. -/
def moveCursor (delta : Int) (st : MenuState) : MenuState × Bool :=
  let totalItems : Int := st.amiibodata.length
  let newCursorIndex := max 0 (min (st.currentCursorIndex + delta) (totalItems - 1))
  if newCursorIndex ≠ st.currentCursorIndex then
    (adjustScrollOffset { st with currentCursorIndex := newCursorIndex }, true)
  else (st, false)

/-- The `AmiiboMenu(AmiiboData)` constructor: zeroed counters and cursor,
then an initial sort by `amiiboSeries` ascending. -/
def mkMenu (amiiboData : List Entry) : MenuState :=
  sortAmiibo
    { amiibodata := amiiboData
      currentSelectedAmiibos := 0
      currentCursorIndex := 0
      scrollOffset := 0
      currentSortIndex := 0
      generateWithImage := false
      shallExit := false }

/-- The loop body of `AmiiboMenu::toggleAllAmiibo`: flip every entry's
`selected`, counting the entries that were unselected before the flip. -/
def toggleAllLoop : List Entry → List Entry × Int
  | [] => ([], 0)
  | e :: rest =>
      let selected := selFlag e
      let r := toggleAllLoop rest
      (setAttr e "selected" (.bool (!selected)) :: r.1,
       if selected then r.2 else r.2 + 1)

/-- Model of `AmiiboMenu::toggleAllAmiibo`. -/
def toggleAllAmiibo (st : MenuState) : MenuState :=
  let r := toggleAllLoop st.amiibodata
  { st with amiibodata := r.1, currentSelectedAmiibos := r.2 }

/-- The entries on which the loop of `AmiiboMenu::generateAmiibo` invokes
`Amiibo::generate`, in iteration order: exactly the entries whose
`selected` flag reads true.  The loop holds the entries by `const`
reference and mutates nothing. -/
def generateCalls : List Entry → List Entry
  | [] => []
  | e :: rest => if selFlag e then e :: generateCalls rest else generateCalls rest

/-- Model of `AmiiboMenu::generateAmiibo`: with an empty selection, message and
return; otherwise run the generation loop (which only reads the catalog;
`Amiibo::generate`'s success only affects console output).  Returns the
state after the call and the trace of entries passed to
`Amiibo::generate`. -/
def generateAmiibo (st : MenuState) : MenuState × List Entry :=
  if st.currentSelectedAmiibos = 0 then (st, [])
  else (st, generateCalls st.amiibodata)

/-- The existence pre-check of `AmiiboMenu::deleteSelectedAmiibo`: an
entry is skipped (no `Amiibo::erase` call) when `head`, `tail`,
`amiiboSeries` and `name` are all non-empty and the directory built from
them does not exist (`fsExists` is the filesystem oracle for that
path). -/
def skipCheck (fsExists : Entry → Bool) (e : Entry) : Bool :=
  !(getS e "head" "").isEmpty && !(getS e "tail" "").isEmpty &&
    !(getS e "amiiboSeries" "").isEmpty && !(getS e "name" "").isEmpty &&
    !fsExists e

/-- Result of the deletion loop: the rewritten catalog, the three
counters of the printed summary's inputs, and the trace of entries passed
to `Amiibo::erase`. -/
structure DeleteResult where
  entries : List Entry
  deletedCount : Int
  skippedCount : Int
  processedCount : Int
  eraseCalls : List Entry
deriving DecidableEq

/-- The loop body of `AmiiboMenu::deleteSelectedAmiibo`: for each selected
entry, either skip it (directory absent) or call `Amiibo::erase`
(`eraseOk` is its success oracle); in every processed case the entry's
`selected` flag is set to false. -/
def deleteLoop (fsExists eraseOk : Entry → Bool) : List Entry → DeleteResult
  | [] => ⟨[], 0, 0, 0, []⟩
  | e :: rest =>
      let r := deleteLoop fsExists eraseOk rest
      if selFlag e then
        let cleared := setAttr e "selected" (.bool false)
        if skipCheck fsExists e then
          ⟨cleared :: r.entries, r.deletedCount, r.skippedCount + 1,
           r.processedCount + 1, r.eraseCalls⟩
        else if eraseOk e then
          ⟨cleared :: r.entries, r.deletedCount + 1, r.skippedCount,
           r.processedCount + 1, e :: r.eraseCalls⟩
        else
          ⟨cleared :: r.entries, r.deletedCount, r.skippedCount,
           r.processedCount + 1, e :: r.eraseCalls⟩
      else ⟨e :: r.entries, r.deletedCount, r.skippedCount, r.processedCount, r.eraseCalls⟩

/-- Model of `AmiiboMenu::deleteSelectedAmiibo`: with an empty selection, message
and return (summary 0/0/0, no collaborator call); otherwise run the loop
and zero the selection counter.  Returns the state after the call, the
summary triple (deleted, skipped, failed) as printed, and the trace of
`Amiibo::erase` calls. -/
def deleteSelectedAmiibo (fsExists eraseOk : Entry → Bool) (st : MenuState) :
    MenuState × (Int × Int × Int) × List Entry :=
  if st.currentSelectedAmiibos = 0 then (st, (0, 0, 0), [])
  else
    let r := deleteLoop fsExists eraseOk st.amiibodata
    ({ st with amiibodata := r.entries, currentSelectedAmiibos := 0 },
     (r.deletedCount, r.skippedCount, r.processedCount - r.deletedCount - r.skippedCount),
     r.eraseCalls)

/-- Model of `AmiiboMenu::updateAmiiboDatabase`: `checkOk` is the result of the
external `UTIL::checkAmiiboDatabase` collaborator, `loaded` the outcome
of re-opening and parsing the database file (`none` for an open or parse
failure).  On check failure the session sets `shallExit` and returns
without touching the catalog; on load failure it returns unchanged; on
success it replaces the catalog and resets cursor, scroll, selection
count and sort index. -/
def updateAmiiboDatabase (checkOk : Bool) (loaded : Option (List Entry))
    (st : MenuState) : MenuState :=
  if checkOk = false then { st with shallExit := true }
  else
    match loaded with
    | none => st
    | some d =>
        { st with amiibodata := d, currentCursorIndex := 0, scrollOffset := 0,
                  currentSelectedAmiibos := 0, currentSortIndex := 0 }

/-- The record `Amiibo::AmiiboId`. -/
structure AmiiboId where
  game_character_id : String
  character_variant : String
  character_figure_type : String
  model_number : String
  series : String
deriving DecidableEq

/-- Model of `std::string::substr(pos, len)` for in-range positions. -/
def substr (s : String) (pos len : Nat) : String :=
  String.mk ((s.toList.drop pos).take len)

/-- Model of `Amiibo::AmiiboId::parse`: reject strings shorter than 16 characters,
otherwise slice the five fixed substrings with no further validation. -/
def AmiiboId.parse (amiibo_id_str : String) : Option AmiiboId :=
  if amiibo_id_str.length < 16 then none
  else
    some
      { game_character_id := substr amiibo_id_str 0 4
        character_variant := substr amiibo_id_str 4 2
        character_figure_type := substr amiibo_id_str 6 2
        model_number := substr amiibo_id_str 8 4
        series := substr amiibo_id_str 12 2 }

/-! ## Invariants and concrete states used by the claims -/

/-- The browser-state invariant of the claim: the cursor indexes a real
entry, the cursor lies inside the visible window, and a catalog shorter
than `VISIBLE_ITEMS` never scrolls. -/
def cursorScrollInv (st : MenuState) : Prop :=
  0 ≤ st.currentCursorIndex ∧
  st.currentCursorIndex < (st.amiibodata.length : Int) ∧
  st.scrollOffset ≤ st.currentCursorIndex ∧
  st.currentCursorIndex < st.scrollOffset + VISIBLE_ITEMS ∧
  ((st.amiibodata.length : Int) < VISIBLE_ITEMS → st.scrollOffset = 0)

/-- Strengthened induction invariant: additionally the scroll offset is
inside `[0, max 0 (total - VISIBLE_ITEMS)]` (the clamp range of
`adjustScrollOffset`). -/
def strongInv (st : MenuState) : Prop :=
  cursorScrollInv st ∧ 0 ≤ st.scrollOffset ∧
  st.scrollOffset ≤ max 0 ((st.amiibodata.length : Int) - VISIBLE_ITEMS)

/-- A sequence of `moveCursor` calls, each with an arbitrary delta. -/
def moveCursorSeq (deltas : List Int) (st : MenuState) : MenuState :=
  deltas.foldl (fun s d => (moveCursor d s).1) st

/-- A two-entry catalog in a mixed selection state. -/
def togDemoState : MenuState :=
  { amiibodata := [[("selected", .bool true)], ([] : Entry)]
    currentSelectedAmiibos := 1
    currentCursorIndex := 0
    scrollOffset := 0
    currentSortIndex := 0
    generateWithImage := false
    shallExit := false }

/-- The scenario state of the spec: 50 catalog entries, cursor at 0,
scroll offset 0. -/
def scenario50State : MenuState :=
  { amiibodata := List.replicate 50 ([] : Entry)
    currentSelectedAmiibos := 0
    currentCursorIndex := 0
    scrollOffset := 0
    currentSortIndex := 0
    generateWithImage := false
    shallExit := false }

/-- One catalog entry that has a non-empty `amiiboSeries` value. -/
def presentEntry : Entry := [("amiiboSeries", .str "Zelda")]

/-- A one-entry catalog whose entry is selected, with a consistent
selection counter. -/
def selectedDemoState : MenuState :=
  { amiibodata := [[("selected", .bool true)]]
    currentSelectedAmiibos := 1
    currentCursorIndex := 0
    scrollOffset := 0
    currentSortIndex := 0
    generateWithImage := false
    shallExit := false }

/-- Two distinct catalog entries that are comparator-equal for sort
option 0 (`amiiboSeries` ascending): both have series "A", but differ in
`name`. -/
def tieEntryX : Entry := [("amiiboSeries", .str "A"), ("name", .str "x")]

/-- The second of the two comparator-equal entries. -/
def tieEntryY : Entry := [("amiiboSeries", .str "A"), ("name", .str "y")]

/-- A menu whose catalog holds the two comparator-equal entries in one
order; it is already sorted for sort option 0. -/
def tieDemoState : MenuState :=
  { amiibodata := [tieEntryX, tieEntryY]
    currentSelectedAmiibos := 0
    currentCursorIndex := 0
    scrollOffset := 0
    currentSortIndex := 0
    generateWithImage := false
    shallExit := false }

/-- The same menu with the two comparator-equal entries swapped; equally
sorted for sort option 0. -/
def tieSwapState : MenuState :=
  { tieDemoState with amiibodata := [tieEntryY, tieEntryX] }

/-! ## Basic attribute-map lemmas -/

theorem getAttr_setAttr_self (e : Entry) (k : String) (v : JsonVal) :
    getAttr (setAttr e k v) k = some v := by
  induction e with
  | nil => simp [setAttr, getAttr]
  | cons p rest ih =>
      obtain ⟨k', v'⟩ := p
      by_cases h : k' = k <;> simp [setAttr, getAttr, h, ih]

theorem selFlag_set (e : Entry) (b : Bool) :
    selFlag (setAttr e "selected" (.bool b)) = b := by
  simp [selFlag, getB, getJsonValue, getAttr_setAttr_self, asBool]

/-! ## Claim theorems -/

/-- C8: when the external check-and-fetch collaborator
(`UTIL::checkAmiiboDatabase`) reports failure, `updateAmiiboDatabase`
sets the session's exit flag and returns without replacing the catalog
(all other state is also untouched). -/
theorem updateDb_failure_exits (loaded : Option (List Entry)) (st : MenuState) :
    (updateAmiiboDatabase false loaded st).shallExit = true ∧
    (updateAmiiboDatabase false loaded st).amiibodata = st.amiibodata ∧
    updateAmiiboDatabase false loaded st = { st with shallExit := true } := by
  refine ⟨rfl, rfl, rfl⟩

/-- C9: `getJsonValue` is a total function (the embedding never raises):
it returns the stored value when the key is present with the requested
type, and the supplied default when the key is absent or the stored
value has the wrong type. -/
theorem getJsonValue_spec {α : Type} (ext : JsonVal → Option α) (e : Entry)
    (k : String) (d : α) :
    (∀ v t, getAttr e k = some v → ext v = some t → getJsonValue ext e k d = t) ∧
    (getAttr e k = none → getJsonValue ext e k d = d) ∧
    (∀ v, getAttr e k = some v → ext v = none → getJsonValue ext e k d = d) := by
  refine ⟨?_, ?_, ?_⟩
  · intro v t hv ht
    simp [getJsonValue, hv, ht]
  · intro hv
    simp [getJsonValue, hv]
  · intro v hv ht
    simp [getJsonValue, hv, ht]

theorem getJsonValue_spec_witness :
    getJsonValue asBool [("selected", .bool true)] "selected" false = true ∧
    getJsonValue asBool [] "selected" false = false ∧
    getJsonValue asBool [("selected", .str "x")] "selected" false = false :=
  ⟨(getJsonValue_spec asBool [("selected", .bool true)] "selected" false).1
      (.bool true) true (by decide) rfl,
   (getJsonValue_spec asBool [] "selected" false).2.1 rfl,
   (getJsonValue_spec asBool [("selected", .str "x")] "selected" false).2.2
      (.str "x") (by decide) rfl⟩

/-- C10: `AmiiboId::parse` succeeds exactly on strings of length at least
16 (no hex validation), and on success the five fields are the fixed
substrings `s[0..4)`, `s[4..6)`, `s[6..8)`, `s[8..12)`, `s[12..14)`. -/
theorem amiiboId_parse_spec (s : String) :
    ((AmiiboId.parse s).isSome ↔ 16 ≤ s.length) ∧
    (∀ id, AmiiboId.parse s = some id →
      id.game_character_id = String.mk (s.toList.take 4) ∧
      id.character_variant = String.mk ((s.toList.drop 4).take 2) ∧
      id.character_figure_type = String.mk ((s.toList.drop 6).take 2) ∧
      id.model_number = String.mk ((s.toList.drop 8).take 4) ∧
      id.series = String.mk ((s.toList.drop 12).take 2)) := by
  unfold AmiiboId.parse
  by_cases h : s.length < 16
  · simp [h]
  · simp [h, substr]
    omega

theorem amiiboId_parse_spec_witness :
    (AmiiboId.parse "0000000000211f00").isSome ∧
    AmiiboId.parse "0000000000211f00" =
      some { game_character_id := "0000", character_variant := "00",
             character_figure_type := "00", model_number := "0021",
             series := "1f" } ∧
    AmiiboId.parse "short" = none :=
  ⟨(amiiboId_parse_spec "0000000000211f00").1.mpr (by decide),
   by decide, by decide⟩

/-- C5: when the selection counter is zero, the generate and delete
actions process no entry, make no collaborator call (empty trace),
print a 0/0/0 summary for delete, and leave the session state (catalog,
cursor, counters, flags) unchanged. -/
theorem empty_selection_noop (st : MenuState) (fsExists eraseOk : Entry → Bool)
    (h : st.currentSelectedAmiibos = 0) :
    generateAmiibo st = (st, []) ∧
    deleteSelectedAmiibo fsExists eraseOk st = (st, (0, 0, 0), []) := by
  constructor
  · simp [generateAmiibo, h]
  · simp [deleteSelectedAmiibo, h]

theorem empty_selection_noop_witness :
    generateAmiibo (mkMenu [[("selected", .bool false)]]) =
      (mkMenu [[("selected", .bool false)]], []) ∧
    deleteSelectedAmiibo (fun _ => true) (fun _ => true)
        (mkMenu [[("selected", .bool false)]]) =
      (mkMenu [[("selected", .bool false)]], (0, 0, 0), []) :=
  empty_selection_noop (mkMenu [[("selected", .bool false)]])
    (fun _ => true) (fun _ => true) (by decide)

/-! ## toggleAll -/

theorem toggleAllLoop_fst (l : List Entry) :
    (toggleAllLoop l).1 = l.map (fun e => setAttr e "selected" (.bool (!selFlag e))) := by
  induction l with
  | nil => rfl
  | cons e rest ih => simp [toggleAllLoop, ih]

theorem toggleAllLoop_snd (l : List Entry) :
    (toggleAllLoop l).2 = (l.countP (fun e => !selFlag e) : Int) := by
  induction l with
  | nil => rfl
  | cons e rest ih =>
      by_cases h : selFlag e <;>
        simp [toggleAllLoop, List.countP_cons, h, ih]

/-- C3: `toggleAllAmiibo` flips the `selected` flag of every entry (read
back through the browser's own accessor), sets the selection counter to
the number of entries that were unselected before the call, and as a
consequence the counter again equals the number of selected entries
afterwards. -/
theorem toggleAll_spec (st : MenuState) :
    (toggleAllAmiibo st).amiibodata.length = st.amiibodata.length ∧
    (∀ i (h1 : i < st.amiibodata.length)
        (h2 : i < (toggleAllAmiibo st).amiibodata.length),
      selFlag ((toggleAllAmiibo st).amiibodata.get ⟨i, h2⟩) =
        !selFlag (st.amiibodata.get ⟨i, h1⟩)) ∧
    (toggleAllAmiibo st).currentSelectedAmiibos =
      (st.amiibodata.countP (fun e => !selFlag e) : Int) ∧
    (toggleAllAmiibo st).currentSelectedAmiibos =
      ((toggleAllAmiibo st).amiibodata.countP selFlag : Int) := by
  refine ⟨?_, ?_, ?_, ?_⟩
  · simp [toggleAllAmiibo, toggleAllLoop_fst]
  · intro i h1 h2
    simp [toggleAllAmiibo, toggleAllLoop_fst, selFlag_set]
  · simp [toggleAllAmiibo, toggleAllLoop_snd]
  · simp [toggleAllAmiibo, toggleAllLoop_snd, toggleAllLoop_fst,
      List.countP_map, Function.comp_def, selFlag_set]

theorem toggleAll_spec_witness :
    selFlag ((toggleAllAmiibo togDemoState).amiibodata.get ⟨0, by decide⟩) =
      !selFlag (togDemoState.amiibodata.get ⟨0, by decide⟩) :=
  (toggleAll_spec togDemoState).2.1 0 (by decide) (by decide)

/-! ## moveCursor -/

/-- C6: `moveCursor(delta)` always leaves the cursor at
`clamp(current + delta, 0, total - 1)`; when that clamped value equals
the current cursor the call is a strict no-op (state untouched, no
refresh); and in the 50-entry scenario `moveCursor(+49)` from cursor 0
yields cursor 49 and scroll offset 12. -/
theorem moveCursor_spec (st : MenuState) (delta : Int) :
    (moveCursor delta st).1.currentCursorIndex =
      max 0 (min (st.currentCursorIndex + delta) ((st.amiibodata.length : Int) - 1)) ∧
    (max 0 (min (st.currentCursorIndex + delta) ((st.amiibodata.length : Int) - 1)) =
        st.currentCursorIndex →
      moveCursor delta st = (st, false)) ∧
    (moveCursor 49 scenario50State).1.currentCursorIndex = 49 ∧
    (moveCursor 49 scenario50State).1.scrollOffset = 12 := by
  refine ⟨?_, ?_, by decide, by decide⟩
  · by_cases h :
      max 0 (min (st.currentCursorIndex + delta) ((st.amiibodata.length : Int) - 1)) =
        st.currentCursorIndex
    · simp [moveCursor, h]
    · simp [moveCursor, h, adjustScrollOffset]
  · intro h
    simp [moveCursor, h]

theorem moveCursor_spec_witness :
    (moveCursor 49 scenario50State).1.currentCursorIndex = 49 ∧
    moveCursor 0 scenario50State = (scenario50State, false) :=
  ⟨(moveCursor_spec scenario50State 49).2.2.1,
   (moveCursor_spec scenario50State 0).2.1 (by decide)⟩

/-! ## Cursor/scroll invariant -/

theorem strongInv_moveCursor (delta : Int) (st : MenuState) (h : strongInv st) :
    strongInv (moveCursor delta st).1 := by
  obtain ⟨⟨h1, h2, h3, h4, h5⟩, h6, h7⟩ := h
  simp only [strongInv, cursorScrollInv, moveCursor, adjustScrollOffset,
    VISIBLE_ITEMS] at *
  split_ifs <;> simp_all <;> omega

theorem strongInv_moveCursorSeq (deltas : List Int) (st : MenuState)
    (h : strongInv st) : strongInv (moveCursorSeq deltas st) := by
  induction deltas generalizing st with
  | nil => exact h
  | cons d rest ih => exact ih _ (strongInv_moveCursor d st h)

theorem strongInv_mkMenu (entries : List Entry) (h : 0 < entries.length) :
    strongInv (mkMenu entries) := by
  unfold strongInv cursorScrollInv mkMenu sortAmiibo stdSort VISIBLE_ITEMS
  simp only [List.length_mergeSort]
  refine ⟨⟨by omega, by simpa using h, by omega, by omega, fun _ => trivial⟩, by omega, by omega⟩

/-- C1: from the freshly constructed menu on a non-empty catalog, after
any sequence of `moveCursor` calls with arbitrary integer deltas, the
cursor indexes a real entry (`0 ≤ cursor < entryCount`), the cursor lies
in the visible window (`scroll ≤ cursor < scroll + VISIBLE_ITEMS`), and
a catalog shorter than `VISIBLE_ITEMS` has scroll offset 0. -/
theorem cursor_scroll_invariant (entries : List Entry) (deltas : List Int)
    (h : 0 < entries.length) :
    cursorScrollInv (moveCursorSeq deltas (mkMenu entries)) :=
  (strongInv_moveCursorSeq deltas (mkMenu entries) (strongInv_mkMenu entries h)).1

theorem cursor_scroll_invariant_witness :
    cursorScrollInv (moveCursorSeq [100, -3] (mkMenu [([] : Entry), []])) :=
  cursor_scroll_invariant [([] : Entry), []] [100, -3] (by decide)

/-! ## Order lemmas for the sort comparator -/

theorem ltJson_irrefl (a : JsonVal) : ltJson a a = false := by
  cases a <;> simp [ltJson]

theorem ltJson_trans {a b c : JsonVal} (hab : ltJson a b = true)
    (hbc : ltJson b c = true) : ltJson a c = true := by
  cases a <;> cases b <;> cases c <;>
    simp only [ltJson, typeRank, decide_eq_true_eq, Bool.and_eq_true,
      Bool.not_eq_true'] at * <;>
    first
      | rfl
      | omega
      | exact lt_trans hab hbc
      | simp_all

theorem ltJson_trichotomy (a b : JsonVal) :
    ltJson a b = true ∨ ltJson b a = true ∨ a = b := by
  cases a <;> cases b <;>
    simp only [ltJson, typeRank, decide_eq_true_eq, Bool.and_eq_true,
      Bool.not_eq_true', JsonVal.bool.injEq, JsonVal.num.injEq,
      JsonVal.str.injEq]
  case null.null => simp
  case null.bool => left; omega
  case null.num => left; omega
  case null.str => left; omega
  case bool.null => right; left; omega
  case bool.bool x y => cases x <;> cases y <;> simp
  case bool.num => left; omega
  case bool.str => left; omega
  case num.null => right; left; omega
  case num.bool => right; left; omega
  case num.num x y => omega
  case num.str => left; omega
  case str.null => right; left; omega
  case str.bool => right; left; omega
  case str.num => right; left; omega
  case str.str x y => rcases lt_trichotomy x y with h | h | h <;> simp [h]

theorem ltJson_asymm {a b : JsonVal} (h : ltJson a b = true) :
    ltJson b a = false := by
  cases hba : ltJson b a
  · rfl
  · have := ltJson_trans h hba
    simp [ltJson_irrefl] at this

theorem ltJson_false_trans {a b c : JsonVal} (h1 : ltJson a b = false)
    (h2 : ltJson b c = false) : ltJson a c = false := by
  cases hac : ltJson a c
  · rfl
  · rcases ltJson_trichotomy a b with hab | hba | heq
    · simp [hab] at h1
    · have := ltJson_trans hba hac
      simp [this] at h2
    · subst heq
      simp [hac] at h2

theorem ltJson_not_both (x y : JsonVal) : (!ltJson x y || !ltJson y x) = true := by
  cases h : ltJson x y
  · simp
  · simp [ltJson_asymm h]

theorem stdSort_le_trans (k : String) (asc : Bool) (a b c : Entry)
    (h1 : (!cmpEntries k asc b a) = true) (h2 : (!cmpEntries k asc c b) = true) :
    (!cmpEntries k asc c a) = true := by
  cases asc <;> simp only [cmpEntries, if_true, if_false, Bool.not_eq_true',
    cond_false, cond_true, Bool.false_eq_true, ite_false, ite_true] at * <;>
  · first
      | exact ltJson_false_trans h1 h2
      | exact ltJson_false_trans h2 h1

theorem stdSort_le_total (k : String) (asc : Bool) (a b : Entry) :
    ((!cmpEntries k asc b a) || (!cmpEntries k asc a b)) = true := by
  cases asc <;> simp only [cmpEntries, ite_false, ite_true, Bool.false_eq_true] <;>
  · first
      | exact ltJson_not_both (sortKeyVal k b) (sortKeyVal k a)
      | exact ltJson_not_both (sortKeyVal k a) (sortKeyVal k b)

theorem stdSort_pairwise (k : String) (asc : Bool) (l : List Entry) :
    (stdSort (cmpEntries k asc) l).Pairwise
      (fun a b => (!cmpEntries k asc b a) = true) :=
  List.sorted_mergeSort (stdSort_le_trans k asc) (stdSort_le_total k asc) l

theorem stdSort_of_pairwise (k : String) (asc : Bool) (l : List Entry)
    (h : l.Pairwise (fun a b => (!cmpEntries k asc b a) = true)) :
    stdSort (cmpEntries k asc) l = l :=
  List.mergeSort_of_sorted h

/-- The deterministic model `sortAmiibo` is one of the executions the
`std::sort` contract permits. -/
theorem sortAmiibo_meets_contract (st : MenuState) :
    sortAmiiboRel st (sortAmiibo st) :=
  ⟨stdSort (cmpEntries (sortFieldOf st) (sortAscOf st)) st.amiibodata, rfl,
   List.mergeSort_perm _ _, stdSort_pairwise _ _ _⟩

theorem tie_cmp_yx_false :
    cmpEntries (sortFieldOf tieDemoState) (sortAscOf tieDemoState)
      tieEntryY tieEntryX = false :=
  ltJson_irrefl (.str "A")

theorem tie_cmp_xy_false :
    cmpEntries (sortFieldOf tieDemoState) (sortAscOf tieDemoState)
      tieEntryX tieEntryY = false :=
  ltJson_irrefl (.str "A")

theorem sortRel_tie_self : sortAmiiboRel tieDemoState tieDemoState := by
  refine ⟨[tieEntryX, tieEntryY], rfl, List.Perm.refl _, ?_⟩
  simp [List.pairwise_cons, tie_cmp_yx_false]

theorem sortRel_tie_swap : sortAmiiboRel tieDemoState tieSwapState := by
  refine ⟨[tieEntryY, tieEntryX], rfl, List.Perm.swap tieEntryX tieEntryY [], ?_⟩
  simp [List.pairwise_cons, tie_cmp_xy_false]

/-- C4 counterexample: the claim "applying the sort twice with the same
option yields exactly the same entry order as applying it once" is not a
property of the program.  `std::sort` promises only a sorted permutation
and is not stable, so on a catalog with two comparator-equal entries
(same `amiiboSeries`, different `name`, sort option 0) one conforming
execution of the first sort returns the catalog unchanged and one
conforming execution of the second sort returns the two tied entries
swapped — a different order.  This is the negation of the claim at a
concrete input. -/
theorem sortAmiibo_idempotent_counterexample :
    sortAmiiboRel tieDemoState tieDemoState ∧
    sortAmiiboRel tieDemoState tieSwapState ∧
    tieSwapState ≠ tieDemoState :=
  ⟨sortRel_tie_self, sortRel_tie_swap, by decide⟩

/-- C4 (amended): sorting is idempotent up to the order of
comparator-equal entries.  For any two consecutive conforming executions
of `sortAmiibo` with the same sort option, the second catalog is a
permutation of the first and carries the identical sequence of
sort-field values; exact order equality of tied entries is not
guaranteed because `std::sort` is unstable. -/
theorem sortAmiibo_idempotent_amended (st st1 st2 : MenuState)
    (h1 : sortAmiiboRel st st1) (h2 : sortAmiiboRel st1 st2) :
    st2.amiibodata.Perm st1.amiibodata ∧
    st2.amiibodata.map (sortKeyVal (sortFieldOf st)) =
      st1.amiibodata.map (sortKeyVal (sortFieldOf st)) := by
  obtain ⟨out1, he1, hp1, hs1⟩ := h1
  obtain ⟨out2, he2, hp2, hs2⟩ := h2
  subst he1
  subst he2
  simp only [sortFieldOf, sortAscOf] at hs1 hs2 ⊢
  simp only at hp2
  refine ⟨hp2, ?_⟩
  set k := SORT_FIELDS.getD st.currentSortIndex "" with hk
  have hpm : (out2.map (sortKeyVal k)).Perm (out1.map (sortKeyVal k)) :=
    hp2.map _
  cases hasc : decide (SORT_DIRECTIONS.getD st.currentSortIndex 'A' = 'A') with
  | false =>
      rw [hasc] at hs1 hs2
      have hkey : ∀ a b : Entry, ((!cmpEntries k false b a) = true) →
          ltJson (sortKeyVal k a) (sortKeyVal k b) = false := by
        intro a b hab
        simpa [cmpEntries] using hab
      have hs1m : (out1.map (sortKeyVal k)).Pairwise
          (fun x y => ltJson x y = false) := List.Pairwise.map _ hkey hs1
      have hs2m : (out2.map (sortKeyVal k)).Pairwise
          (fun x y => ltJson x y = false) := List.Pairwise.map _ hkey hs2
      haveI : IsAntisymm JsonVal (fun x y => ltJson x y = false) := by
        refine ⟨fun x y hxy hyx => ?_⟩
        rcases ltJson_trichotomy x y with h | h | h
        · rw [h] at hxy; cases hxy
        · rw [h] at hyx; cases hyx
        · exact h
      exact List.eq_of_perm_of_sorted hpm hs2m hs1m
  | true =>
      rw [hasc] at hs1 hs2
      have hkey : ∀ a b : Entry, ((!cmpEntries k true b a) = true) →
          ltJson (sortKeyVal k b) (sortKeyVal k a) = false := by
        intro a b hab
        simpa [cmpEntries] using hab
      have hs1m : (out1.map (sortKeyVal k)).Pairwise
          (fun x y => ltJson y x = false) := List.Pairwise.map _ hkey hs1
      have hs2m : (out2.map (sortKeyVal k)).Pairwise
          (fun x y => ltJson y x = false) := List.Pairwise.map _ hkey hs2
      haveI : IsAntisymm JsonVal (fun x y => ltJson y x = false) := by
        refine ⟨fun x y hxy hyx => ?_⟩
        rcases ltJson_trichotomy x y with h | h | h
        · rw [h] at hyx; cases hyx
        · rw [h] at hxy; cases hxy
        · exact h
      exact List.eq_of_perm_of_sorted hpm hs2m hs1m

theorem sortAmiibo_idempotent_amended_witness :
    tieSwapState.amiibodata.Perm tieDemoState.amiibodata ∧
    tieSwapState.amiibodata.map (sortKeyVal (sortFieldOf tieDemoState)) =
      tieDemoState.amiibodata.map (sortKeyVal (sortFieldOf tieDemoState)) :=
  sortAmiibo_idempotent_amended tieDemoState tieDemoState tieSwapState
    sortRel_tie_self sortRel_tie_swap

/-- C7: in the sorted catalog, an entry missing the active sort field is
treated as a null value: sorting ascending puts every entry missing the
field strictly before every entry with a non-empty value for it, and
sorting descending puts it strictly after. -/
theorem sort_missing_field_order (k : String) (l : List Entry) (i j : Nat)
    (s : String) :
    (∀ (hi : i < (stdSort (cmpEntries k true) l).length)
       (hj : j < (stdSort (cmpEntries k true) l).length),
      getAttr ((stdSort (cmpEntries k true) l).get ⟨i, hi⟩) k = none →
      getAttr ((stdSort (cmpEntries k true) l).get ⟨j, hj⟩) k = some (.str s) →
      s ≠ "" → i < j) ∧
    (∀ (hi : i < (stdSort (cmpEntries k false) l).length)
       (hj : j < (stdSort (cmpEntries k false) l).length),
      getAttr ((stdSort (cmpEntries k false) l).get ⟨i, hi⟩) k = none →
      getAttr ((stdSort (cmpEntries k false) l).get ⟨j, hj⟩) k = some (.str s) →
      s ≠ "" → j < i) := by
  constructor
  · intro hi hj hmiss hpres _
    by_contra hij
    have hji : j ≤ i := Nat.le_of_not_lt hij
    rcases Nat.lt_or_ge j i with hlt | hge
    · have hp := (List.pairwise_iff_get.mp (stdSort_pairwise k true l))
        ⟨j, hj⟩ ⟨i, hi⟩ hlt
      simp only [cmpEntries, if_pos, Bool.not_eq_true', ite_true] at hp
      rw [sortKeyVal, sortKeyVal, hmiss, hpres] at hp
      simp [ltJson, typeRank] at hp
    · have : i = j := by omega
      subst this
      rw [hmiss] at hpres
      cases hpres
  · intro hi hj hmiss hpres _
    by_contra hji
    have hij : i ≤ j := Nat.le_of_not_lt hji
    rcases Nat.lt_or_ge i j with hlt | hge
    · have hp := (List.pairwise_iff_get.mp (stdSort_pairwise k false l))
        ⟨i, hi⟩ ⟨j, hj⟩ hlt
      simp only [cmpEntries, Bool.not_eq_true', ite_false] at hp
      rw [sortKeyVal, sortKeyVal, hmiss, hpres] at hp
      simp [ltJson, typeRank] at hp
    · have : i = j := by omega
      subst this
      rw [hmiss] at hpres
      cases hpres

theorem sort_missing_field_order_witness : (0 : Nat) < 1 := by
  have heq : stdSort (cmpEntries "amiiboSeries" true) [([] : Entry), presentEntry]
      = [([] : Entry), presentEntry] :=
    stdSort_of_pairwise _ _ _
      (by simp [cmpEntries, sortKeyVal, presentEntry, getAttr, ltJson, typeRank])
  have h0 : (0 : Nat) <
      (stdSort (cmpEntries "amiiboSeries" true) [([] : Entry), presentEntry]).length := by
    rw [heq]; simp
  have h1 : (1 : Nat) <
      (stdSort (cmpEntries "amiiboSeries" true) [([] : Entry), presentEntry]).length := by
    rw [heq]; simp
  exact (sort_missing_field_order "amiiboSeries" [([] : Entry), presentEntry] 0 1
      "Zelda").1 h0 h1
    (by simp only [List.get_eq_getElem, heq]; rfl)
    (by simp only [List.get_eq_getElem, heq]; rfl)
    (by simp)

/-! ## Batch actions: generate and delete -/

theorem generateCalls_eq (l : List Entry) : generateCalls l = l.filter selFlag := by
  induction l with
  | nil => rfl
  | cons e rest ih =>
      by_cases h : selFlag e <;> simp [generateCalls, List.filter_cons, h, ih]

theorem deleteLoop_entries (f g : Entry → Bool) (l : List Entry) :
    (deleteLoop f g l).entries =
      l.map (fun e => if selFlag e then setAttr e "selected" (.bool false) else e) := by
  induction l with
  | nil => rfl
  | cons e rest ih =>
      by_cases hs : selFlag e
      · by_cases hk : skipCheck f e
        · simp [deleteLoop, hs, hk, ih]
        · by_cases he : g e <;> simp [deleteLoop, hs, hk, he, ih]
      · simp [deleteLoop, hs, ih]

theorem deleteLoop_calls (f g : Entry → Bool) (l : List Entry) :
    (deleteLoop f g l).eraseCalls =
      l.filter (fun e => selFlag e && !skipCheck f e) := by
  induction l with
  | nil => rfl
  | cons e rest ih =>
      by_cases hs : selFlag e
      · by_cases hk : skipCheck f e
        · simp [deleteLoop, List.filter_cons, hs, hk, ih]
        · by_cases he : g e <;> simp [deleteLoop, List.filter_cons, hs, hk, he, ih]
      · simp [deleteLoop, List.filter_cons, hs, ih]

/-- C2 counterexample: on a catalog with one selected entry, the generate
action leaves that entry's `selected` flag true and the selection counter
at 1 — the claim that generate unconditionally clears each processed
entry's `selected` flag is false (only delete does). -/
theorem generate_keeps_selection_counterexample :
    (generateAmiibo selectedDemoState).2 = [[("selected", .bool true)]] ∧
    (generateAmiibo selectedDemoState).1 = selectedDemoState ∧
    selFlag ((generateAmiibo selectedDemoState).1.amiibodata.getD 0 []) = true ∧
    (generateAmiibo selectedDemoState).1.currentSelectedAmiibos = 1 := by
  refine ⟨by decide, by decide, by decide, by decide⟩

/-- C2 (amended): with a non-zero selection counter, both actions iterate
the catalog once in order and invoke the per-entry collaborator only on
entries whose `selected` flag is true (delete additionally skips, without
an `Amiibo::erase` call, selected entries whose record directory is
absent); the delete action unconditionally clears each processed entry's
`selected` flag regardless of the collaborator's outcome and zeroes the
selection counter, while the generate action leaves the catalog,
selection flags and counter entirely unchanged. -/
theorem batch_actions_amended (st : MenuState) (fsExists eraseOk : Entry → Bool)
    (h : st.currentSelectedAmiibos ≠ 0) :
    (generateAmiibo st).2 = st.amiibodata.filter selFlag ∧
    (generateAmiibo st).1 = st ∧
    (deleteSelectedAmiibo fsExists eraseOk st).2.2 =
      st.amiibodata.filter (fun e => selFlag e && !skipCheck fsExists e) ∧
    (∀ e ∈ (deleteSelectedAmiibo fsExists eraseOk st).2.2, selFlag e = true) ∧
    (deleteSelectedAmiibo fsExists eraseOk st).1.amiibodata =
      st.amiibodata.map
        (fun e => if selFlag e then setAttr e "selected" (.bool false) else e) ∧
    (deleteSelectedAmiibo fsExists eraseOk st).1.currentSelectedAmiibos = 0 := by
  refine ⟨?_, ?_, ?_, ?_, ?_, ?_⟩
  · simp [generateAmiibo, h, generateCalls_eq]
  · simp [generateAmiibo, h]
  · simp [deleteSelectedAmiibo, h, deleteLoop_calls]
  · intro e he
    simp [deleteSelectedAmiibo, h, deleteLoop_calls, List.mem_filter] at he
    exact he.2.1
  · simp [deleteSelectedAmiibo, h, deleteLoop_entries]
  · simp [deleteSelectedAmiibo, h]

theorem batch_actions_amended_witness :
    (generateAmiibo selectedDemoState).2 =
      selectedDemoState.amiibodata.filter selFlag ∧
    (deleteSelectedAmiibo (fun _ => true) (fun _ => true)
        selectedDemoState).1.currentSelectedAmiibos = 0 :=
  ⟨(batch_actions_amended selectedDemoState (fun _ => true) (fun _ => true)
      (by decide)).1,
   (batch_actions_amended selectedDemoState (fun _ => true) (fun _ => true)
      (by decide)).2.2.2.2.2⟩

end AmiiboGen
